import Mathlib

/-!
# zapmyco-esp32: audio board layer and command dispatcher

A shallow embedding of `main/bsp_board.cc` (playback channel life cycle and the
capture conditioning stage) and of `main/commands/command_manager.cc` (registry,
dispatcher, vocabulary synchronisation), followed by the properties proved about
them.

Conventions of the embedding:
* `esp_err_t` and every C `int` are mathematical integers; the places where the
  width matters (the `int`/`size_t` division, the `int16_t`/`int32_t` casts) carry
  an explicit reduction modulo `2^w`.
* Global variables (`tx_handle`, `tx_channel_enabled`) are threaded through as a
  `BoardState`.
* A call into the I2S driver or the recognition engine is an entry of a call log;
  the value the driver returns is an input of the embedded function.
-/

namespace Zapmyco

/-! ## ESP-IDF error codes (`esp_err.h`) -/

/-- The ESP-IDF error type, a C `int`. -/
abbrev esp_err_t := Int

/-- Value of `ESP_OK` in `esp_err.h`. -/
def ESP_OK : esp_err_t := 0
/-- Value of `ESP_FAIL` in `esp_err.h`. -/
def ESP_FAIL : esp_err_t := -1
/-- Value of `ESP_ERR_INVALID_ARG` in `esp_err.h`. -/
def ESP_ERR_INVALID_ARG : esp_err_t := 0x102
/-- Value of `ESP_ERR_INVALID_STATE` in `esp_err.h`. -/
def ESP_ERR_INVALID_STATE : esp_err_t := 0x103

/-! ## Playback channel (`bsp_board.cc`) -/

/-- One call into the I2S driver on the transmit channel, with the handle it was
issued on (and, for a write, the requested length in bytes). -/
inductive HwCall where
  | i2s_channel_enable (handle : Nat)
  | i2s_channel_write (handle : Nat) (data_len : Nat)
  | i2s_channel_disable (handle : Nat)
  deriving DecidableEq, Repr

/-- The file-level variables of `bsp_board.cc` that the playback path uses:
`tx_handle` (`none` is `nullptr`) and `tx_channel_enabled`. -/
structure BoardState where
  tx_handle : Option Nat
  tx_channel_enabled : Bool
  deriving DecidableEq, Repr

/-- What the I2S driver answers during one call of a board function. Each driver
function is called at most once per `bsp_play_audio` / `bsp_audio_stop`, so one
value per driver function describes every outcome. -/
structure HwOutcome where
  enable_ret : esp_err_t
  write_ret : esp_err_t
  bytes_written : Nat
  disable_ret : esp_err_t
  deriving DecidableEq, Repr

/-- Result of a board function: returned code, globals afterwards, driver calls
issued (in order). -/
structure BoardResult where
  ret : esp_err_t
  state : BoardState
  calls : List HwCall
  deriving DecidableEq, Repr

/-- Embedding of `bsp_audio_stop` (bsp_board.cc:384-412). -/
def bsp_audio_stop (hw : HwOutcome) (s : BoardState) : BoardResult :=
  match s.tx_handle with
  | none => ⟨ESP_OK, s, []⟩
  | some h =>
    if s.tx_channel_enabled then
      let ret := hw.disable_ret
      if ret ≠ ESP_OK then
        ⟨ret, s, [HwCall.i2s_channel_disable h]⟩
      else
        ⟨ESP_OK, ⟨s.tx_handle, false⟩, [HwCall.i2s_channel_disable h]⟩
    else
      ⟨ESP_OK, s, []⟩

/-- The part of `bsp_play_audio` from the blocking write on (bsp_board.cc:349-372),
entered with the globals `s` and the driver calls `calls` issued so far. -/
def bsp_play_audio_transfer (hw : HwOutcome) (h : Nat) (data_len : Nat)
    (s : BoardState) (calls : List HwCall) : BoardResult :=
  let calls := calls ++ [HwCall.i2s_channel_write h data_len]
  if hw.write_ret ≠ ESP_OK then
    ⟨hw.write_ret, s, calls⟩
  else
    -- `bytes_written != data_len` is logged only; so is a failing stop
    let stop := bsp_audio_stop hw s
    ⟨ESP_OK, stop.state, calls ++ stop.calls⟩

/-- Embedding of `bsp_play_audio` (bsp_board.cc:319-373). `audio_data = none` is
the null pointer; the bytes themselves are only handed to the driver. -/
def bsp_play_audio (hw : HwOutcome) (audio_data : Option (List Nat)) (data_len : Nat)
    (s : BoardState) : BoardResult :=
  match s.tx_handle with
  | none => ⟨ESP_ERR_INVALID_STATE, s, []⟩
  | some h =>
    if audio_data = none ∨ data_len = 0 then
      ⟨ESP_ERR_INVALID_ARG, s, []⟩
    else if ¬ s.tx_channel_enabled then
      -- re-enable the channel when it was stopped before
      if hw.enable_ret ≠ ESP_OK then
        ⟨hw.enable_ret, s, [HwCall.i2s_channel_enable h]⟩
      else
        bsp_play_audio_transfer hw h data_len ⟨s.tx_handle, true⟩
          [HwCall.i2s_channel_enable h]
    else
      bsp_play_audio_transfer hw h data_len s []

/-! ## Capture conditioning (`bsp_board.cc`, `bsp_get_feed_data`) -/

/-- The conversion `static_cast<int16_t>`: reduction into [-32768, 32767] modulo 2^16. -/
def to_int16 (x : Int) : Int := (x + 32768) % 65536 - 32768

/-- The conversion `static_cast<int32_t>`: reduction into [-2^31, 2^31) modulo 2^32. -/
def to_int32 (x : Int) : Int := (x + 2147483648) % 4294967296 - 2147483648

/-- The two clamp statements of the loop body (bsp_board.cc:206-213), on the
32-bit intermediate `sample`. -/
def clamp_sample (sample : Int) : Int :=
  let sample := if sample > 32767 then 32767 else sample
  let sample := if sample < -32768 then -32768 else sample
  sample

/-- One iteration of the conditioning loop on the slot value `b`
(bsp_board.cc:199-215): widen, (gain disabled), clamp, narrow. -/
def condition_sample (b : Int) : Int :=
  to_int16 (clamp_sample (to_int32 b))

/-- The loop `for (int i = 0; i < samples; i++)` (bsp_board.cc:195-216) with
`n` iterations left and the index at `i`. An index outside the buffer is
undefined behaviour in the source and `none` here. -/
def condition_loop : Nat → Nat → List Int → Option (List Int)
  | 0, _, buffer => some buffer
  | n + 1, i, buffer =>
    match buffer[i]? with
    | none => none
    | some b => condition_loop n (i + 1) (buffer.set i (condition_sample b))

/-- The value of `buffer_len / sizeof(int16_t)` stored into `int samples`
(bsp_board.cc:191): `sizeof` is a 32-bit `size_t` on this target, so
`buffer_len` is converted to unsigned before the division. -/
def sample_count (buffer_len : Int) : Nat :=
  ((buffer_len % 4294967296) / 2).toNat

/-- Result of `bsp_get_feed_data`: the returned code, the caller's buffer
afterwards, and whether the length-mismatch warning was logged. -/
structure FeedResult where
  ret : esp_err_t
  buffer : List Int
  mismatch_logged : Bool
  deriving DecidableEq, Repr

/-- Embedding of `bsp_get_feed_data` (bsp_board.cc:166-220). `read_ret` and
`bytes_read` are what `i2s_channel_read` reports and `buffer` is the content of
the caller's buffer once that call has returned. The comparison
`bytes_read != buffer_len` is between a `size_t` and an `int`, hence unsigned. -/
def bsp_get_feed_data (is_get_raw_channel : Bool) (read_ret : esp_err_t)
    (bytes_read : Nat) (buffer : List Int) (buffer_len : Int) : Option FeedResult :=
  if read_ret ≠ ESP_OK then
    some ⟨read_ret, buffer, false⟩
  else
    let mismatch_logged : Bool := decide ((bytes_read : Int) ≠ buffer_len % 4294967296)
    if ¬ is_get_raw_channel then
      match condition_loop (sample_count buffer_len) 0 buffer with
      | none => none
      | some conditioned => some ⟨ESP_OK, conditioned, mismatch_logged⟩
    else
      some ⟨ESP_OK, buffer, mismatch_logged⟩

/-! ## Commands (`command_base.h`, `command_manager.h`, `command_manager.cc`) -/

/-- Embedding of `command_config_t` (command_base.h:18-22). -/
structure command_config_t where
  command_id : Int
  pinyin : String
  description : String
  deriving DecidableEq, Repr

/-- The interface `CommandBase` (command_base.h:29-70) as a record of its virtual
methods. `execute` acts on the world `W` outside the registry (GPIO levels,
the playback channel, ...) and returns an `esp_err_t`. -/
structure CommandBase (W : Type) where
  get_config : command_config_t
  execute : W → esp_err_t × W
  get_description : String
  get_command_id : Int
  get_pinyin : String

/-- Embedding of `command_result_t` (command_manager.h:25-30). -/
inductive command_result_t where
  | COMMAND_RESULT_SUCCESS
  | COMMAND_RESULT_NOT_FOUND
  | COMMAND_RESULT_EXECUTE_FAILED
  | COMMAND_RESULT_EXIT_REQUESTED
  deriving DecidableEq, Repr

open command_result_t

/-- Embedding of `CommandManager::register_command` (command_manager.cc:139-143) on
the member `commands_`; `none` is a null `unique_ptr`. -/
def register_command {W : Type} (command : Option (CommandBase W))
    (commands_ : List (CommandBase W)) : List (CommandBase W) :=
  match command with
  | some c => commands_ ++ [c]
  | none => commands_

/-- The scan of `CommandManager::find_command` (command_manager.cc:145-152) over the
part of `commands_` that starts at slot `slot`. The returned pointer is the slot
of the vector that owns the object, together with the object. -/
def find_command_from {W : Type} (slot : Nat) :
    List (CommandBase W) → Int → Option (Nat × CommandBase W)
  | [], _ => none
  | command :: rest, command_id =>
    if command.get_command_id = command_id then some (slot, command)
    else find_command_from (slot + 1) rest command_id

/-- Embedding of `CommandManager::find_command` (command_manager.cc:145-152); `none` is
`nullptr`. -/
def find_command {W : Type} (commands_ : List (CommandBase W)) (command_id : Int) :
    Option (Nat × CommandBase W) :=
  find_command_from 0 commands_ command_id

/-- Result of `execute_command`: the returned code, the world afterwards, and the
slots of the commands whose `execute` was invoked (in order). -/
structure ExecResult (W : Type) where
  result : command_result_t
  world : W
  invoked : List Nat

/-- Embedding of `CommandManager::execute_command` (command_manager.cc:101-117). -/
def execute_command {W : Type} (commands_ : List (CommandBase W)) (command_id : Int)
    (w : W) : ExecResult W :=
  match find_command commands_ command_id with
  | none => ⟨COMMAND_RESULT_NOT_FOUND, w, []⟩
  | some (slot, command) =>
    if command_id = 314 then
      let result := command.execute w
      ⟨if result.1 = ESP_OK then COMMAND_RESULT_EXIT_REQUESTED
        else COMMAND_RESULT_EXECUTE_FAILED, result.2, [slot]⟩
    else
      let result := command.execute w
      ⟨if result.1 = ESP_OK then COMMAND_RESULT_SUCCESS
        else COMMAND_RESULT_EXECUTE_FAILED, result.2, [slot]⟩

/-! ## Vocabulary synchronisation (`CommandManager::configure_commands`) -/

/-- One call into the recognition engine's phrase-table interface. -/
inductive EngineCall where
  | esp_mn_commands_update_from_sdkconfig
  | esp_mn_commands_clear
  | esp_mn_commands_alloc
  | esp_mn_commands_add (command_id : Int) (pinyin : String)
  | esp_mn_commands_update
  | print_active_speech_commands
  deriving DecidableEq, Repr

/-- What the engine answers during one `configure_commands`: the code of
`esp_mn_commands_alloc`, the code of the `k`-th `esp_mn_commands_add` (counted
from 0), and the phrases `esp_mn_commands_update` reports as rejected (`none` is
a `NULL` result). -/
structure EngineOutcome where
  alloc_ret : esp_err_t
  add_ret : Nat → esp_err_t
  error_phrases : Option (List (Int × String))

/-- Result of `configure_commands`: the returned code, the two counters as they
are logged at the end, the rejected phrases that were logged, and the engine
calls issued (in order). -/
structure ConfigureResult where
  ret : esp_err_t
  success_count : Nat
  fail_count : Nat
  warned : List (Int × String)
  calls : List EngineCall
  deriving DecidableEq, Repr

/-- State of the loop over `commands_` in `configure_commands`: the two counters
and the engine calls issued so far. The counters are C `int`s; they never exceed
the number of registered commands, which a vector on a 32-bit target keeps below
2^31, so they are not reduced. -/
structure AddLoopState where
  success_count : Nat
  fail_count : Nat
  calls : List EngineCall
  deriving DecidableEq, Repr

/-- The loop `for (const auto& command : commands_)` of `configure_commands`
(command_manager.cc:58-74); `k` is the number of `esp_mn_commands_add` calls made
before this iteration. -/
def add_loop {W : Type} (eng : EngineOutcome) :
    List (CommandBase W) → Nat → AddLoopState → AddLoopState
  | [], _, st => st
  | command :: rest, k, st =>
    let config := command.get_config
    let ret_cmd := eng.add_ret k
    let calls := st.calls ++ [EngineCall.esp_mn_commands_add config.command_id config.pinyin]
    if ret_cmd = ESP_OK then
      add_loop eng rest (k + 1) ⟨st.success_count + 1, st.fail_count, calls⟩
    else
      add_loop eng rest (k + 1) ⟨st.success_count, st.fail_count + 1, calls⟩

/-- Embedding of `CommandManager::configure_commands` (command_manager.cc:38-99). -/
def configure_commands {W : Type} (eng : EngineOutcome)
    (commands_ : List (CommandBase W)) : ConfigureResult :=
  let calls := [EngineCall.esp_mn_commands_update_from_sdkconfig,
    EngineCall.esp_mn_commands_clear, EngineCall.esp_mn_commands_alloc]
  if eng.alloc_ret ≠ ESP_OK then
    ⟨ESP_FAIL, 0, 0, [], calls⟩
  else
    let st := add_loop eng commands_ 0 ⟨0, 0, calls⟩
    let calls := st.calls ++ [EngineCall.esp_mn_commands_update]
    let warned : List (Int × String) :=
      match eng.error_phrases with
      | some phrases => if phrases.length > 0 then phrases else []
      | none => []
    let calls := calls ++ [EngineCall.print_active_speech_commands]
    ⟨if st.fail_count = 0 then ESP_OK else ESP_FAIL,
      st.success_count, st.fail_count, warned, calls⟩

/-! ## Auxiliary definitions used in the statements -/

/-- A run of `register_command` calls, in the order of `commands`. -/
def register_commands {W : Type} (commands : List (Option (CommandBase W)))
    (commands_ : List (CommandBase W)) : List (CommandBase W) :=
  commands.foldl (fun acc command => register_command command acc) commands_

/-- The registry after `register_command(a)`, then the registrations `others`,
then `register_command(b)`, starting from `commands_`. -/
def registered_a_then_b {W : Type} (commands_ : List (CommandBase W)) (a : CommandBase W)
    (others : List (Option (CommandBase W))) (b : CommandBase W) : List (CommandBase W) :=
  register_command (some b)
    (register_commands others (register_command (some a) commands_))

/-- The engine call `configure_commands` makes for one command: the add of the
identifier and phonetic key of its `get_config()`. -/
def add_call {W : Type} (command : CommandBase W) : EngineCall :=
  EngineCall.esp_mn_commands_add command.get_config.command_id command.get_config.pinyin

/-- Number of failing adds among the first `n` calls of `esp_mn_commands_add`. -/
def failed_adds (eng : EngineOutcome) (n : Nat) : Nat :=
  ((List.range n).filter (fun k => decide (eng.add_ret k ≠ ESP_OK))).length

/-- Number of succeeding adds among the first `n` calls of `esp_mn_commands_add`. -/
def succeeded_adds (eng : EngineOutcome) (n : Nat) : Nat :=
  ((List.range n).filter (fun k => decide (eng.add_ret k = ESP_OK))).length

/-- A command for concrete examples: its world is the log of executed
identifiers, `execute` appends its own identifier and returns `ret`. -/
def probe_command (command_id : Int) (pinyin : String) (ret : esp_err_t) :
    CommandBase (List Int) :=
  ⟨⟨command_id, pinyin, "probe"⟩, fun w => (ret, w ++ [command_id]), "probe",
    command_id, pinyin⟩

/-- A registry for concrete examples: 308, then 314 (succeeding), a skipped null
registration, 309, and a second 314 whose `execute` would fail. -/
def example_registry : List (CommandBase (List Int)) :=
  registered_a_then_b [probe_command 308 "bang wo guan deng" ESP_OK]
    (probe_command 314 "bai bai" ESP_OK)
    [none, some (probe_command 309 "da kai feng shan" ESP_OK)]
    (probe_command 314 "zai jian" ESP_FAIL)

/-- Three descriptors for concrete examples. -/
def example_descriptors : List (CommandBase (List Int)) :=
  [probe_command 309 "da kai feng shan" ESP_OK,
   probe_command 308 "bang wo guan deng" ESP_OK,
   probe_command 314 "bai bai" ESP_OK]

/-- An engine for concrete examples: the allocation succeeds, the second add
fails, the update rejects nothing. -/
def example_engine : EngineOutcome :=
  ⟨ESP_OK, fun k => if k = 1 then ESP_FAIL else ESP_OK, none⟩

/-- An engine for concrete examples: the allocation fails; every add would
succeed. -/
def alloc_failing_engine : EngineOutcome :=
  ⟨ESP_FAIL, fun _ => ESP_OK, none⟩

/-- A frame of 160 samples (320 bytes) for concrete examples: the two extreme
16-bit values followed by a ramp. -/
def example_frame : List Int :=
  (-32768) :: 32767 :: List.map (fun k : Nat => (k : Int) * 400 - 31000) (List.range 158)

/-- A signed 16-bit value, the content of one `int16_t` slot. -/
def is_int16 (x : Int) : Prop := -32768 ≤ x ∧ x ≤ 32767

instance (x : Int) : Decidable (is_int16 x) := by
  unfold is_int16; infer_instance

/-! ## Playback initialisation and the playback state machine (`bsp_board.cc`) -/

/-- One call into the I2S driver made by `bsp_audio_init`; the standard-mode call
carries the handle and the parts of the configuration that depend on the
arguments (sample rate, data bit width, mono slot mode). -/
inductive InitCall where
  | i2s_new_channel
  | i2s_channel_init_std_mode (handle : Nat) (sample_rate_hz : Nat) (bit_width : Nat)
      (mono : Bool)
  | i2s_channel_enable (handle : Nat)
  deriving DecidableEq, Repr

/-- What the I2S driver answers during one `bsp_audio_init`: the code of
`i2s_new_channel` and the handle it stores into `tx_handle` when it succeeds
(a failing creation leaves `tx_handle` as it was), the code of
`i2s_channel_init_std_mode`, and the code of `i2s_channel_enable`. -/
structure InitOutcome where
  new_channel_ret : esp_err_t
  new_handle : Nat
  init_std_mode_ret : esp_err_t
  enable_ret : esp_err_t
  deriving DecidableEq, Repr

/-- Result of `bsp_audio_init`: returned code, globals afterwards, driver calls
issued (in order). -/
structure InitResult where
  ret : esp_err_t
  state : BoardState
  calls : List InitCall
  deriving DecidableEq, Repr

/-- Embedding of `bsp_audio_init` (bsp_board.cc:245-306). -/
def bsp_audio_init (out : InitOutcome) (sample_rate : Nat) (channel_format : Int)
    (bits_per_chan : Int) (s : BoardState) : InitResult :=
  if out.new_channel_ret ≠ ESP_OK then
    ⟨out.new_channel_ret, s, [InitCall.i2s_new_channel]⟩
  else
    let s : BoardState := ⟨some out.new_handle, s.tx_channel_enabled⟩
    let bit_width : Nat := if bits_per_chan = 32 then 32 else 16
    let mono : Bool := decide (channel_format = 1)
    let calls := [InitCall.i2s_new_channel,
      InitCall.i2s_channel_init_std_mode out.new_handle sample_rate bit_width mono]
    if out.init_std_mode_ret ≠ ESP_OK then
      ⟨out.init_std_mode_ret, s, calls⟩
    else
      let calls := calls ++ [InitCall.i2s_channel_enable out.new_handle]
      if out.enable_ret ≠ ESP_OK then
        ⟨out.enable_ret, s, calls⟩
      else
        ⟨ESP_OK, ⟨s.tx_handle, true⟩, calls⟩

/-- One call of a playback function of the board, with its arguments and with
what the driver answers during it. -/
inductive BoardOp where
  | audio_init (out : InitOutcome) (sample_rate : Nat) (channel_format : Int)
      (bits_per_chan : Int)
  | play_audio (hw : HwOutcome) (audio_data : Option (List Nat)) (data_len : Nat)
  | audio_stop (hw : HwOutcome)

/-- The globals after one call. -/
def board_step (op : BoardOp) (s : BoardState) : BoardState :=
  match op with
  | BoardOp.audio_init out sample_rate channel_format bits_per_chan =>
    (bsp_audio_init out sample_rate channel_format bits_per_chan s).state
  | BoardOp.play_audio hw audio_data data_len =>
    (bsp_play_audio hw audio_data data_len s).state
  | BoardOp.audio_stop hw => (bsp_audio_stop hw s).state

/-- The globals after a sequence of calls, first call first. -/
def board_run (ops : List BoardOp) (s : BoardState) : BoardState :=
  ops.foldl (fun s op => board_step op s) s

/-- The initial values of the globals (bsp_board.cc:53-55): `tx_handle = nullptr`,
`tx_channel_enabled = false`. -/
def board_initial : BoardState := ⟨none, false⟩

/-! ## Concrete commands (`light_on_command.cc`, `light_off_command.cc`,
`bye_bye_command.cc`, `CommandManager::initialize`) -/

/-- The declarations the concrete commands use that live in headers outside the
sources at hand (`light_on_command.h` and the audio assets under
`assets/voices/`): they are parameters of the embedding. -/
structure CommandAssets where
  light_on_command_id : Int
  light_on_led_gpio : Nat
  light_on : Option (List Nat)
  light_on_len : Nat
  light_off : Option (List Nat)
  light_off_len : Nat
  byebye : Option (List Nat)
  byebye_len : Nat

/-- The world the concrete commands act on: the playback globals, what the
driver will answer during the `k`-th `bsp_play_audio` from now on, the number of
`bsp_play_audio` calls made, and the logs of `gpio_set_level` calls, of driver
calls and of the playback results the commands logged. -/
structure World where
  board : BoardState
  hw_script : Nat → HwOutcome
  plays : Nat
  gpio_calls : List (Nat × Nat)
  hw_calls : List HwCall
  audio_rets : List esp_err_t

/-- The call `gpio_set_level(gpio_num, level)`; its result is discarded by the
commands. -/
def gpio_set_level (gpio_num : Nat) (level : Nat) (w : World) : World :=
  ⟨w.board, w.hw_script, w.plays, w.gpio_calls ++ [(gpio_num, level)], w.hw_calls,
    w.audio_rets⟩

/-- The call `bsp_play_audio(audio_data, data_len)` made inside the world. -/
def world_play_audio (audio_data : Option (List Nat)) (data_len : Nat) (w : World) :
    esp_err_t × World :=
  let r := bsp_play_audio (w.hw_script w.plays) audio_data data_len w.board
  (r.ret, ⟨r.state, w.hw_script, w.plays + 1, w.gpio_calls, w.hw_calls ++ r.calls,
    w.audio_rets⟩)

/-- The log statement after the playback: success or the error name, by
`audio_ret`. -/
def log_audio_ret (audio_ret : esp_err_t) (w : World) : World :=
  ⟨w.board, w.hw_script, w.plays, w.gpio_calls, w.hw_calls, w.audio_rets ++ [audio_ret]⟩

/-- Embedding of `LightOnCommand::execute` (light_on_command.cc:26-42). -/
def LightOnCommand_execute (assets : CommandAssets) (w : World) : esp_err_t × World :=
  let w := gpio_set_level assets.light_on_led_gpio 1 w
  let played := world_play_audio assets.light_on assets.light_on_len w
  let audio_ret := played.1
  (ESP_OK, log_audio_ret audio_ret played.2)

/-- Embedding of `LightOffCommand::execute` (light_off_command.cc:26-42);
`LED_GPIO` is `GPIO_NUM_21` (light_off_command.h:24). -/
def LightOffCommand_execute (assets : CommandAssets) (w : World) : esp_err_t × World :=
  let w := gpio_set_level 21 0 w
  let played := world_play_audio assets.light_off assets.light_off_len w
  let audio_ret := played.1
  (ESP_OK, log_audio_ret audio_ret played.2)

/-- Embedding of `ByeByeCommand::execute` (bye_bye_command.cc:26-39). -/
def ByeByeCommand_execute (assets : CommandAssets) (w : World) : esp_err_t × World :=
  let played := world_play_audio assets.byebye assets.byebye_len w
  let audio_ret := played.1
  (ESP_OK, log_audio_ret audio_ret played.2)

/-- The class `LightOnCommand` (light_on_command.cc). -/
def LightOnCommand (assets : CommandAssets) : CommandBase World :=
  ⟨⟨assets.light_on_command_id, "bang wo kai deng", "帮我开灯"⟩,
    LightOnCommand_execute assets, "帮我开灯", assets.light_on_command_id,
    "bang wo kai deng"⟩

/-- The class `LightOffCommand` (light_off_command.h, light_off_command.cc);
`COMMAND_ID` is 308. -/
def LightOffCommand (assets : CommandAssets) : CommandBase World :=
  ⟨⟨308, "bang wo guan deng", "帮我关灯"⟩,
    LightOffCommand_execute assets, "帮我关灯", 308, "bang wo guan deng"⟩

/-- The class `ByeByeCommand` (bye_bye_command.h, bye_bye_command.cc);
`COMMAND_ID` is 314. -/
def ByeByeCommand (assets : CommandAssets) : CommandBase World :=
  ⟨⟨314, "bai bai", "拜拜"⟩, ByeByeCommand_execute assets, "拜拜", 314, "bai bai"⟩

/-- Embedding of `CommandManager::initialize` (command_manager.cc:27-36) on the
member `commands_`. -/
def initialize_commands (assets : CommandAssets) (commands_ : List (CommandBase World)) :
    List (CommandBase World) :=
  register_command (some (ByeByeCommand assets))
    (register_command (some (LightOffCommand assets))
      (register_command (some (LightOnCommand assets)) commands_))

/-- Assets for concrete examples: identifier 307 and GPIO 21 for the light-on
command, four-byte clips. -/
def example_assets : CommandAssets :=
  ⟨307, 21, some [1, 2, 3, 4], 4, some [5, 6, 7, 8], 4, some [9, 10, 11, 12], 4⟩

/-- A world for concrete examples in which the playback channel was never
initialised, so that every `bsp_play_audio` fails. -/
def uninitialised_world : World :=
  ⟨board_initial, fun _ => ⟨ESP_OK, ESP_OK, 4, ESP_OK⟩, 0, [], [], []⟩

/-! ## Playback channel: properties -/

/-- C1 (counterexample). The channel is initialised and Enabled, the data is
non-null and 4 bytes long, the write succeeds and the driver's disable fails with
`ESP_FAIL`: `bsp_play_audio` returns `ESP_OK` and `tx_channel_enabled` is still
true, so "returns ESP_OK implies Disabled afterwards" is false there. -/
theorem bsp_play_audio_ok_not_disabled_cex :
    (⟨some 1, true⟩ : BoardState).tx_handle ≠ none ∧
    ¬ ((bsp_play_audio ⟨ESP_OK, ESP_OK, 4, ESP_FAIL⟩ (some [1, 2, 3, 4]) 4
          ⟨some 1, true⟩).ret = ESP_OK →
        (bsp_play_audio ⟨ESP_OK, ESP_OK, 4, ESP_FAIL⟩ (some [1, 2, 3, 4]) 4
          ⟨some 1, true⟩).state.tx_channel_enabled = false) := by
  decide

/-- C1 (amended). For an initialised playback channel (Enabled or Disabled),
non-null data, non-zero length and every outcome of the driver calls:
`bsp_play_audio` returns `ESP_OK` exactly when the re-enable (issued only from
Disabled) and the write returned `ESP_OK`, whatever the disable returns: a
failing disable is only logged and the call still returns `ESP_OK`. When it
returns `ESP_OK` the handle is unchanged, the last driver call it issued is the
disable, and `tx_channel_enabled` is false afterwards exactly when that disable
returned `ESP_OK`; after a failing disable the flag is still true. -/
theorem bsp_play_audio_ok_disabled_iff (hw : HwOutcome) (audio_data : Option (List Nat))
    (data_len : Nat) (s : BoardState) (h : Nat)
    (hinit : s.tx_handle = some h) (hdata : audio_data ≠ none) (hlen : data_len ≠ 0) :
    ((bsp_play_audio hw audio_data data_len s).ret = ESP_OK ↔
      ((s.tx_channel_enabled = true ∨ hw.enable_ret = ESP_OK) ∧ hw.write_ret = ESP_OK)) ∧
    ((s.tx_channel_enabled = true ∨ hw.enable_ret = ESP_OK) → hw.write_ret = ESP_OK →
      hw.disable_ret ≠ ESP_OK →
      (bsp_play_audio hw audio_data data_len s).ret = ESP_OK ∧
      (bsp_play_audio hw audio_data data_len s).state = ⟨some h, true⟩) ∧
    ((bsp_play_audio hw audio_data data_len s).ret = ESP_OK →
      (bsp_play_audio hw audio_data data_len s).state.tx_handle = some h ∧
      (bsp_play_audio hw audio_data data_len s).calls.getLast? =
        some (HwCall.i2s_channel_disable h) ∧
      ((bsp_play_audio hw audio_data data_len s).state.tx_channel_enabled = false ↔
        hw.disable_ret = ESP_OK)) := by
  obtain ⟨handle, enabled⟩ := s
  simp only at hinit
  subst hinit
  cases enabled <;>
    by_cases he : hw.enable_ret = ESP_OK <;>
    by_cases hw_ : hw.write_ret = ESP_OK <;>
    by_cases hd : hw.disable_ret = ESP_OK <;>
    simp [bsp_play_audio, bsp_play_audio_transfer, bsp_audio_stop, hdata, hlen, he, hw_, hd]

/-- C1 (witness): a Disabled channel, four bytes, enable and write succeeding
and the disable failing with `ESP_FAIL`: the call returns `ESP_OK` and the
channel is left Enabled. -/
theorem bsp_play_audio_ok_disabled_iff_witness :
    (bsp_play_audio ⟨ESP_OK, ESP_OK, 4, ESP_FAIL⟩ (some [1, 2, 3, 4]) 4
        ⟨some 1, false⟩).ret = ESP_OK ∧
    (bsp_play_audio ⟨ESP_OK, ESP_OK, 4, ESP_FAIL⟩ (some [1, 2, 3, 4]) 4
        ⟨some 1, false⟩).state = ⟨some 1, true⟩ :=
  (bsp_play_audio_ok_disabled_iff ⟨ESP_OK, ESP_OK, 4, ESP_FAIL⟩ (some [1, 2, 3, 4]) 4
    ⟨some 1, false⟩ 1 rfl (by decide) (by decide)).2.1 (Or.inr rfl) rfl (by decide)

/-- C2 (counterexample). On the Uninitialized channel (`tx_handle` null), null
data with length 0 is not answered with `ESP_ERR_INVALID_ARG`: the handle check
comes first and the call returns `ESP_ERR_INVALID_STATE`. -/
theorem bsp_play_audio_null_uninit_cex :
    ¬ ((bsp_play_audio ⟨ESP_OK, ESP_OK, 0, ESP_OK⟩ none 0 ⟨none, false⟩).ret
        = ESP_ERR_INVALID_ARG) ∧
    (bsp_play_audio ⟨ESP_OK, ESP_OK, 0, ESP_OK⟩ none 0 ⟨none, false⟩).ret
        = ESP_ERR_INVALID_STATE := by
  decide

/-- C2 (amended). `bsp_play_audio` with null data (any length) or length 0 (any
data) issues no driver call and leaves handle and enabled flag unchanged in every
state; it returns `ESP_ERR_INVALID_ARG` when the channel is initialised (Enabled
or Disabled) and `ESP_ERR_INVALID_STATE` when it is Uninitialized. -/
theorem bsp_play_audio_invalid_arg (hw : HwOutcome) (audio_data : Option (List Nat))
    (data_len : Nat) (s : BoardState) (hbad : audio_data = none ∨ data_len = 0) :
    bsp_play_audio hw audio_data data_len s =
      ⟨if s.tx_handle = none then ESP_ERR_INVALID_STATE else ESP_ERR_INVALID_ARG, s, []⟩ := by
  obtain ⟨handle, enabled⟩ := s
  cases handle with
  | none => simp [bsp_play_audio]
  | some h => simp [bsp_play_audio, hbad]

/-- C2 (witness): an Enabled channel and a non-null buffer passed with length 0. -/
theorem bsp_play_audio_invalid_arg_witness :
    bsp_play_audio ⟨ESP_OK, ESP_OK, 0, ESP_OK⟩ (some [7]) 0 ⟨some 1, true⟩ =
      ⟨if (⟨some 1, true⟩ : BoardState).tx_handle = none then ESP_ERR_INVALID_STATE
        else ESP_ERR_INVALID_ARG, ⟨some 1, true⟩, []⟩ :=
  bsp_play_audio_invalid_arg ⟨ESP_OK, ESP_OK, 0, ESP_OK⟩ (some [7]) 0 ⟨some 1, true⟩
    (Or.inr rfl)

/-- C8. `bsp_audio_stop` is idempotent. On an Uninitialized channel and on a
Disabled channel it returns `ESP_OK`, issues no driver call and changes nothing;
a driver call is issued only on an Enabled channel, it is exactly one disable,
and the state becomes Disabled when that disable returns `ESP_OK` (and is kept,
with the driver's code returned, when it does not). Hence a second call right
after a call that returned `ESP_OK` returns `ESP_OK`, issues no driver call and
changes nothing, whatever the driver would answer. -/
theorem bsp_audio_stop_idempotent (hw hw2 : HwOutcome) (s : BoardState) :
    (s.tx_handle = none → bsp_audio_stop hw s = ⟨ESP_OK, s, []⟩) ∧
    (s.tx_channel_enabled = false → bsp_audio_stop hw s = ⟨ESP_OK, s, []⟩) ∧
    ((bsp_audio_stop hw s).calls ≠ [] →
      ∃ h, s.tx_handle = some h ∧ s.tx_channel_enabled = true) ∧
    (∀ h, s.tx_handle = some h → s.tx_channel_enabled = true →
      (bsp_audio_stop hw s).calls = [HwCall.i2s_channel_disable h] ∧
      (hw.disable_ret = ESP_OK →
        bsp_audio_stop hw s = ⟨ESP_OK, ⟨some h, false⟩, [HwCall.i2s_channel_disable h]⟩) ∧
      (hw.disable_ret ≠ ESP_OK →
        bsp_audio_stop hw s = ⟨hw.disable_ret, s, [HwCall.i2s_channel_disable h]⟩)) ∧
    ((bsp_audio_stop hw s).ret = ESP_OK →
      bsp_audio_stop hw2 (bsp_audio_stop hw s).state =
        ⟨ESP_OK, (bsp_audio_stop hw s).state, []⟩) := by
  obtain ⟨handle, enabled⟩ := s
  cases handle <;> cases enabled <;>
    by_cases hd : hw.disable_ret = ESP_OK <;>
    simp [bsp_audio_stop, hd]

/-- C8 (witness): an Enabled channel whose disable succeeds, stopped twice; the
second call is answered `ESP_OK` without touching the driver even when the
driver would now fail. -/
theorem bsp_audio_stop_idempotent_witness :
    bsp_audio_stop ⟨ESP_OK, ESP_OK, 0, ESP_FAIL⟩
        (bsp_audio_stop ⟨ESP_OK, ESP_OK, 0, ESP_OK⟩ ⟨some 1, true⟩).state =
      ⟨ESP_OK, (bsp_audio_stop ⟨ESP_OK, ESP_OK, 0, ESP_OK⟩ ⟨some 1, true⟩).state, []⟩ :=
  (bsp_audio_stop_idempotent ⟨ESP_OK, ESP_OK, 0, ESP_OK⟩ ⟨ESP_OK, ESP_OK, 0, ESP_FAIL⟩
    ⟨some 1, true⟩).2.2.2.2 (by decide)

/-! ## Capture conditioning: properties -/

lemma to_int32_of_int16 (b : Int) (hb : is_int16 b) : to_int32 b = b := by
  unfold is_int16 at hb
  unfold to_int32
  omega

lemma clamp_sample_of_int16 (b : Int) (hb : is_int16 b) : clamp_sample b = b := by
  unfold is_int16 at hb
  unfold clamp_sample
  simp only
  split_ifs <;> omega

lemma to_int16_of_int16 (b : Int) (hb : is_int16 b) : to_int16 b = b := by
  unfold is_int16 at hb
  unfold to_int16
  omega

lemma condition_sample_of_int16 (b : Int) (hb : is_int16 b) : condition_sample b = b := by
  unfold condition_sample
  rw [to_int32_of_int16 b hb, clamp_sample_of_int16 b hb, to_int16_of_int16 b hb]

lemma set_getElem_same (l : List Int) (i : Nat) (h : i < l.length) :
    l.set i l[i] = l := by
  apply List.ext_getElem?
  intro j
  by_cases hij : i = j
  · subst hij
    simp [h]
  · simp [hij]

lemma condition_loop_of_int16 (n : Nat) :
    ∀ (i : Nat) (buffer : List Int), (∀ x ∈ buffer, is_int16 x) → i + n ≤ buffer.length →
      condition_loop n i buffer = some buffer := by
  induction n with
  | zero => intro i buffer _ _; rfl
  | succ n ih =>
    intro i buffer hall hlen
    have hi : i < buffer.length := by omega
    have hmem : buffer[i] ∈ buffer := List.getElem_mem hi
    have hset : buffer.set i (condition_sample buffer[i]) = buffer := by
      rw [condition_sample_of_int16 _ (hall _ hmem)]
      exact set_getElem_same buffer i hi
    simp only [condition_loop, List.getElem?_eq_getElem hi, hset]
    exact ih (i + 1) buffer hall (by omega)

/-- C6. When the capture read succeeds and every slot of the delivered buffer
holds a signed 16-bit value, `bsp_get_feed_data` with `is_get_raw_channel = false`
returns `ESP_OK` and leaves the buffer, sample by sample and in length, as the
read delivered it (the `buffer_len / 2` conditioned slots lie inside the buffer). -/
theorem bsp_get_feed_data_identity_in_range (bytes_read : Nat) (buffer : List Int)
    (buffer_len : Int) (hrange : ∀ x ∈ buffer, is_int16 x)
    (hlen : sample_count buffer_len ≤ buffer.length) :
    (bsp_get_feed_data false ESP_OK bytes_read buffer buffer_len).map (fun r => r.buffer)
        = some buffer ∧
    (bsp_get_feed_data false ESP_OK bytes_read buffer buffer_len).map (fun r => r.ret)
        = some ESP_OK ∧
    condition_loop (sample_count buffer_len) 0 buffer = some buffer := by
  have h := condition_loop_of_int16 (sample_count buffer_len) 0 buffer hrange (by omega)
  simp [bsp_get_feed_data, h]

/-- C6 (witness): a 320-byte frame of 160 in-range samples, the two extreme
values included, comes back unchanged. -/
theorem bsp_get_feed_data_identity_in_range_witness :
    (bsp_get_feed_data false ESP_OK 320 example_frame 320).map (fun r => r.buffer)
      = some example_frame ∧
    (bsp_get_feed_data false ESP_OK 320 example_frame 320).map (fun r => r.ret)
      = some ESP_OK ∧
    condition_loop (sample_count 320) 0 example_frame = some example_frame :=
  bsp_get_feed_data_identity_in_range 320 example_frame 320
    (by
      intro x hx
      simp only [example_frame, List.mem_cons, List.mem_map, List.mem_range] at hx
      unfold is_int16
      rcases hx with rfl | rfl | ⟨k, hk, rfl⟩ <;> omega)
    (by simp [sample_count, example_frame])

lemma condition_sample_eq_clamp (x : Int)
    (hx : -2147483648 ≤ x ∧ x ≤ 2147483647) : condition_sample x = clamp_sample x := by
  unfold condition_sample to_int16 to_int32 clamp_sample
  simp only
  split_ifs <;> omega

/-- The conditioning loop entered at index `pre.length` rewrites the next `n`
slots with `condition_sample` and leaves the slots before and after. -/
lemma condition_loop_eq_map (n : Nat) :
    ∀ (pre rest : List Int), n ≤ rest.length →
      condition_loop n pre.length (pre ++ rest) =
        some (pre ++ ((rest.take n).map condition_sample ++ rest.drop n)) := by
  induction n with
  | zero => intro pre rest _; simp [condition_loop]
  | succ n ih =>
    intro pre rest hlen
    cases rest with
    | nil => simp at hlen
    | cons b rest =>
      have hlen2 : n ≤ rest.length := by simpa using hlen
      have hget : (pre ++ b :: rest)[pre.length]? = some b := by
        rw [List.getElem?_append_right (le_refl _)]
        simp
      have hset : (pre ++ b :: rest).set pre.length (condition_sample b) =
          (pre ++ [condition_sample b]) ++ rest := by
        rw [List.set_append_right _ _ (le_refl _)]
        simp
      have hidx : pre.length + 1 = (pre ++ [condition_sample b]).length := by simp
      simp only [condition_loop, hget, hset]
      rw [hidx, ih (pre ++ [condition_sample b]) rest hlen2]
      simp

/-- C7. The clamp step of the conditioning stage. On every integer `x` (in
particular every 32-bit intermediate) the clamp yields 32767 when `x > 32767`,
-32768 when `x < -32768` and `x` otherwise; the result lies in [-32768, 32767]
and the narrowing cast to `int16_t` returns it unchanged (no wrap-around). This
is what the stage does: one loop iteration on a 32-bit value `x` produces exactly
the clamped value, and `bsp_get_feed_data` with `is_get_raw_channel = false`,
after a successful read of a buffer of 32-bit values, returns the buffer with
each of its `buffer_len / 2` conditioned slots replaced by its clamped value,
every one of them in [-32768, 32767]. -/
theorem clamp_sample_saturates (x : Int) (bytes_read : Nat) (buffer : List Int)
    (buffer_len : Int) :
    (x > 32767 → clamp_sample x = 32767) ∧
    (x < -32768 → clamp_sample x = -32768) ∧
    (-32768 ≤ x ∧ x ≤ 32767 → clamp_sample x = x) ∧
    (-32768 ≤ clamp_sample x ∧ clamp_sample x ≤ 32767) ∧
    to_int16 (clamp_sample x) = clamp_sample x ∧
    (-2147483648 ≤ x ∧ x ≤ 2147483647 → condition_sample x = clamp_sample x) ∧
    ((∀ y ∈ buffer, -2147483648 ≤ y ∧ y ≤ 2147483647) →
      sample_count buffer_len ≤ buffer.length →
      bsp_get_feed_data false ESP_OK bytes_read buffer buffer_len =
        some ⟨ESP_OK,
          (buffer.take (sample_count buffer_len)).map clamp_sample ++
            buffer.drop (sample_count buffer_len),
          decide ((bytes_read : Int) ≠ buffer_len % 4294967296)⟩ ∧
      ∀ y ∈ (buffer.take (sample_count buffer_len)).map clamp_sample,
        -32768 ≤ y ∧ y ≤ 32767) := by
  have hclamp : ∀ z : Int, -32768 ≤ clamp_sample z ∧ clamp_sample z ≤ 32767 := by
    intro z
    unfold clamp_sample
    simp only
    split_ifs <;> omega
  refine ⟨?_, ?_, ?_, hclamp x, ?_, condition_sample_eq_clamp x, ?_⟩
  · intro hx; unfold clamp_sample; simp only; split_ifs <;> omega
  · intro hx; unfold clamp_sample; simp only; split_ifs <;> omega
  · intro hx; unfold clamp_sample; simp only; split_ifs <;> omega
  · have h := hclamp x
    unfold to_int16
    omega
  · intro hwide hfit
    have hloop := condition_loop_eq_map (sample_count buffer_len) [] buffer hfit
    have hmap : (buffer.take (sample_count buffer_len)).map condition_sample =
        (buffer.take (sample_count buffer_len)).map clamp_sample := by
      apply List.map_congr_left
      intro y hy
      exact condition_sample_eq_clamp y (hwide y (List.mem_of_mem_take hy))
    simp only [List.nil_append, List.length_nil] at hloop
    rw [hmap] at hloop
    refine ⟨by simp [bsp_get_feed_data, hloop], ?_⟩
    intro y hy
    obtain ⟨z, -, rfl⟩ := List.mem_map.mp hy
    exact hclamp z

/-- C7 (witness): the largest 32-bit value saturates at 32767, and a frame
holding 40000 and -40000 comes back from the conditioning stage with 32767 and
-32768 in their place (not the wrapped -25536 and 25536). -/
theorem clamp_sample_saturates_witness :
    clamp_sample 2147483647 = 32767 ∧
    to_int16 40000 = -25536 ∧
    bsp_get_feed_data false ESP_OK 6 [40000, -40000, 5] 6 =
      some ⟨ESP_OK, [32767, -32768, 5], false⟩ :=
  ⟨(clamp_sample_saturates 2147483647 6 [40000, -40000, 5] 6).1 (by decide),
    by decide,
    (((clamp_sample_saturates 2147483647 6 [40000, -40000, 5] 6).2.2.2.2.2.2
      (by decide) (by decide)).1).trans (by decide)⟩

/-! ## Registry and dispatcher: properties -/

lemma find_command_from_eq_none {W : Type} (commands_ : List (CommandBase W))
    (command_id : Int) :
    ∀ slot, find_command_from slot commands_ command_id = none ↔
      ∀ c ∈ commands_, c.get_command_id ≠ command_id := by
  induction commands_ with
  | nil => intro slot; simp [find_command_from]
  | cons d ds ih =>
    intro slot
    by_cases hd : d.get_command_id = command_id
    · simp [find_command_from, hd]
    · simp [find_command_from, hd, ih (slot + 1)]

/-- What a hit of the scan means: the returned slot is `slot + k` for the first
position `k` of the scanned part whose command reports the identifier. -/
lemma find_command_from_eq_some {W : Type} (commands_ : List (CommandBase W))
    (command_id : Int) :
    ∀ (slot i : Nat) (c : CommandBase W),
      find_command_from slot commands_ command_id = some (i, c) →
      ∃ k, i = slot + k ∧ commands_[k]? = some c ∧ c.get_command_id = command_id ∧
        ∀ j, j < k → ∀ d, commands_[j]? = some d → d.get_command_id ≠ command_id := by
  induction commands_ with
  | nil => intro slot i c h; simp [find_command_from] at h
  | cons d ds ih =>
    intro slot i c h
    by_cases hd : d.get_command_id = command_id
    · simp only [find_command_from, hd, if_true, Option.some.injEq, Prod.mk.injEq] at h
      obtain ⟨rfl, rfl⟩ := h
      exact ⟨0, rfl, by simp, hd, fun j hj => absurd hj (Nat.not_lt_zero j)⟩
    · simp only [find_command_from, hd, if_false] at h
      obtain ⟨k, hk, hget, hid, hfirst⟩ := ih (slot + 1) i c h
      refine ⟨k + 1, by omega, by simpa using hget, hid, ?_⟩
      intro j hj e he
      cases j with
      | zero =>
        simp only [List.getElem?_cons_zero, Option.some.injEq] at he
        subst he
        exact hd
      | succ j =>
        simp only [List.getElem?_cons_succ] at he
        exact hfirst j (by omega) e he

lemma find_command_from_append {W : Type} (commands_ more : List (CommandBase W))
    (command_id : Int) :
    ∀ (slot : Nat) (x : Nat × CommandBase W),
      find_command_from slot commands_ command_id = some x →
      find_command_from slot (commands_ ++ more) command_id = some x := by
  induction commands_ with
  | nil => intro slot x h; simp [find_command_from] at h
  | cons d ds ih =>
    intro slot x h
    by_cases hd : d.get_command_id = command_id
    · simpa [find_command_from, hd] using h
    · simp only [find_command_from, hd, if_false] at h
      simpa [find_command_from, hd] using ih (slot + 1) x h

lemma register_commands_eq {W : Type} (commands : List (Option (CommandBase W))) :
    ∀ commands_ : List (CommandBase W),
      register_commands commands commands_ = commands_ ++ commands.filterMap id := by
  induction commands with
  | nil => intro commands_; simp [register_commands]
  | cons c cs ih =>
    intro commands_
    have step : register_commands (c :: cs) commands_ =
        register_commands cs (register_command c commands_) := rfl
    rw [step, ih]
    cases c <;> simp [register_command]

/-- C3. When no registered command reports `command_id` as its identifier,
`execute_command` returns `COMMAND_RESULT_NOT_FOUND`, invokes no command's
`execute`, and leaves the world as it was (the registry is not an output of the
function: it is only read). -/
theorem execute_command_unregistered {W : Type} (commands_ : List (CommandBase W))
    (command_id : Int) (w : W)
    (hnone : ∀ c ∈ commands_, c.get_command_id ≠ command_id) :
    find_command commands_ command_id = none ∧
    (execute_command commands_ command_id w).result = COMMAND_RESULT_NOT_FOUND ∧
    (execute_command commands_ command_id w).invoked = [] ∧
    (execute_command commands_ command_id w).world = w := by
  have h : find_command commands_ command_id = none :=
    (find_command_from_eq_none commands_ command_id 0).mpr hnone
  simp [execute_command, h]

/-- C3 (witness): identifier 7 on a registry holding 308 and 314. -/
theorem execute_command_unregistered_witness :
    find_command [probe_command 308 "bang wo guan deng" ESP_OK,
        probe_command 314 "bai bai" ESP_OK] 7 = none ∧
    (execute_command [probe_command 308 "bang wo guan deng" ESP_OK,
        probe_command 314 "bai bai" ESP_OK] 7 []).result = COMMAND_RESULT_NOT_FOUND ∧
    (execute_command [probe_command 308 "bang wo guan deng" ESP_OK,
        probe_command 314 "bai bai" ESP_OK] 7 []).invoked = [] ∧
    (execute_command [probe_command 308 "bang wo guan deng" ESP_OK,
        probe_command 314 "bai bai" ESP_OK] 7 []).world = [] :=
  execute_command_unregistered _ 7 [] (by simp [probe_command])

/-- C4. When the registry contains a command with identifier 314,
`execute_command(314)` resolves a command (the first one reporting 314), invokes
its `execute` once, and returns `COMMAND_RESULT_EXIT_REQUESTED` when that returns
`ESP_OK` and `COMMAND_RESULT_EXECUTE_FAILED` for any other code; the result is
never `COMMAND_RESULT_NOT_FOUND` and never `COMMAND_RESULT_SUCCESS`. -/
theorem execute_command_exit_id {W : Type} (commands_ : List (CommandBase W)) (w : W)
    (hreg : ∃ c ∈ commands_, c.get_command_id = 314) :
    ∃ slot command,
      find_command commands_ 314 = some (slot, command) ∧
      commands_[slot]? = some command ∧
      command.get_command_id = 314 ∧
      ((command.execute w).1 = ESP_OK →
        (execute_command commands_ 314 w).result = COMMAND_RESULT_EXIT_REQUESTED) ∧
      ((command.execute w).1 ≠ ESP_OK →
        (execute_command commands_ 314 w).result = COMMAND_RESULT_EXECUTE_FAILED) ∧
      (execute_command commands_ 314 w).result ≠ COMMAND_RESULT_NOT_FOUND ∧
      (execute_command commands_ 314 w).result ≠ COMMAND_RESULT_SUCCESS ∧
      (execute_command commands_ 314 w).invoked = [slot] ∧
      (execute_command commands_ 314 w).world = (command.execute w).2 := by
  have hne : find_command commands_ 314 ≠ none := by
    intro h
    obtain ⟨c, hc, hid⟩ := hreg
    exact (find_command_from_eq_none commands_ 314 0).mp h c hc hid
  obtain ⟨⟨slot, command⟩, hfind⟩ := Option.ne_none_iff_exists'.mp hne
  obtain ⟨k, hk, hget, hid, -⟩ := find_command_from_eq_some commands_ 314 0 slot command hfind
  have hks : k = slot := by omega
  subst hks
  refine ⟨k, command, hfind, hget, hid, ?_⟩
  by_cases hok : (command.execute w).1 = ESP_OK <;>
    simp [execute_command, hfind, hok]

/-- C4 (witness): 314 registered after 308, its `execute` failing with `ESP_FAIL`. -/
theorem execute_command_exit_id_witness :
    ∃ slot command,
      find_command [probe_command 308 "bang wo guan deng" ESP_OK,
        probe_command 314 "bai bai" ESP_FAIL] 314 = some (slot, command) ∧
      [probe_command 308 "bang wo guan deng" ESP_OK,
        probe_command 314 "bai bai" ESP_FAIL][slot]? = some command ∧
      command.get_command_id = 314 ∧
      ((command.execute []).1 = ESP_OK →
        (execute_command [probe_command 308 "bang wo guan deng" ESP_OK,
          probe_command 314 "bai bai" ESP_FAIL] 314 []).result
            = COMMAND_RESULT_EXIT_REQUESTED) ∧
      ((command.execute []).1 ≠ ESP_OK →
        (execute_command [probe_command 308 "bang wo guan deng" ESP_OK,
          probe_command 314 "bai bai" ESP_FAIL] 314 []).result
            = COMMAND_RESULT_EXECUTE_FAILED) ∧
      (execute_command [probe_command 308 "bang wo guan deng" ESP_OK,
        probe_command 314 "bai bai" ESP_FAIL] 314 []).result ≠ COMMAND_RESULT_NOT_FOUND ∧
      (execute_command [probe_command 308 "bang wo guan deng" ESP_OK,
        probe_command 314 "bai bai" ESP_FAIL] 314 []).result ≠ COMMAND_RESULT_SUCCESS ∧
      (execute_command [probe_command 308 "bang wo guan deng" ESP_OK,
        probe_command 314 "bai bai" ESP_FAIL] 314 []).invoked = [slot] ∧
      (execute_command [probe_command 308 "bang wo guan deng" ESP_OK,
        probe_command 314 "bai bai" ESP_FAIL] 314 []).world = (command.execute []).2 :=
  execute_command_exit_id _ []
    ⟨probe_command 314 "bai bai" ESP_FAIL, by simp, rfl⟩

/-- C5. After `register_command(a)`, any further registrations, and then
`register_command(b)` with `b` reporting the same identifier as `a`:
`find_command` on that identifier returns the earliest-registered command that
reports it (no earlier slot holds one), a slot no later than the one `a` took and
therefore never the last slot, which holds `b`; `execute_command` on that
identifier invokes `execute` of that slot only, so never of `b`. -/
theorem find_command_first_registered {W : Type} (commands_ : List (CommandBase W))
    (a b : CommandBase W) (others : List (Option (CommandBase W))) (w : W)
    (hid : a.get_command_id = b.get_command_id) :
    ∃ slot command,
      find_command (registered_a_then_b commands_ a others b) b.get_command_id
        = some (slot, command) ∧
      (registered_a_then_b commands_ a others b)[slot]? = some command ∧
      command.get_command_id = b.get_command_id ∧
      (∀ j, j < slot → ∀ d, (registered_a_then_b commands_ a others b)[j]? = some d →
        d.get_command_id ≠ b.get_command_id) ∧
      slot ≤ commands_.length ∧
      (registered_a_then_b commands_ a others b)[commands_.length]? = some a ∧
      (registered_a_then_b commands_ a others b)[
        (registered_a_then_b commands_ a others b).length - 1]? = some b ∧
      slot < (registered_a_then_b commands_ a others b).length - 1 ∧
      (execute_command (registered_a_then_b commands_ a others b) b.get_command_id w).invoked
        = [slot] := by
  have hR : registered_a_then_b commands_ a others b =
      (commands_ ++ [a]) ++ (others.filterMap id ++ [b]) := by
    simp [registered_a_then_b, register_command, register_commands_eq]
  have hne : find_command_from 0 (commands_ ++ [a]) b.get_command_id ≠ none := by
    intro h
    exact (find_command_from_eq_none _ _ 0).mp h a (by simp) hid
  obtain ⟨⟨slot, command⟩, hfind0⟩ := Option.ne_none_iff_exists'.mp hne
  obtain ⟨k0, hk0, hget0, -, -⟩ :=
    find_command_from_eq_some _ _ 0 slot command hfind0
  have hlt : slot < (commands_ ++ [a]).length := by
    have : k0 < (commands_ ++ [a]).length := by
      by_contra hge
      rw [List.getElem?_eq_none (by omega)] at hget0
      exact absurd hget0 (by simp)
    omega
  have hfind : find_command (registered_a_then_b commands_ a others b) b.get_command_id
      = some (slot, command) := by
    rw [hR]
    exact find_command_from_append _ _ _ 0 _ hfind0
  obtain ⟨k, hk, hget, hcid, hfirst⟩ :=
    find_command_from_eq_some _ _ 0 slot command hfind
  have hks : k = slot := by omega
  subst hks
  have hlen : (registered_a_then_b commands_ a others b).length =
      commands_.length + 1 + (others.filterMap id).length + 1 := by
    rw [hR]; simp; omega
  simp only [List.length_append, List.length_singleton] at hlt
  refine ⟨k, command, hfind, hget, hcid, hfirst, by omega, ?_, ?_, by omega, ?_⟩
  · rw [hR, List.append_assoc, List.getElem?_append_right (le_refl _)]
    simp
  · have hR2 : registered_a_then_b commands_ a others b =
        (commands_ ++ [a] ++ others.filterMap id) ++ [b] := by
      rw [hR]; simp
    have hidx : commands_.length + 1 + (others.filterMap id).length + 1 - 1 =
        (commands_ ++ [a] ++ others.filterMap id).length := by
      simp only [List.length_append, List.length_singleton]; omega
    rw [hlen, hidx, hR2, List.getElem?_append_right (le_refl _)]
    simp
  · by_cases h314 : b.get_command_id = 314
    · rw [h314] at hfind
      simp [execute_command, hfind, h314]
    · simp [execute_command, hfind, h314]

/-- C5 (witness): 314 is registered second and again last (fifth call, fourth
slot); lookup and dispatch stay on the earlier one. -/
theorem find_command_first_registered_witness :
    ∃ slot command,
      find_command example_registry 314 = some (slot, command) ∧
      example_registry[slot]? = some command ∧
      command.get_command_id = 314 ∧
      (∀ j, j < slot → ∀ d, example_registry[j]? = some d → d.get_command_id ≠ 314) ∧
      slot ≤ 1 ∧
      example_registry[1]? = some (probe_command 314 "bai bai" ESP_OK) ∧
      example_registry[example_registry.length - 1]?
        = some (probe_command 314 "zai jian" ESP_FAIL) ∧
      slot < example_registry.length - 1 ∧
      (execute_command example_registry 314 []).invoked = [slot] :=
  find_command_first_registered [probe_command 308 "bang wo guan deng" ESP_OK]
    (probe_command 314 "bai bai" ESP_OK) (probe_command 314 "zai jian" ESP_FAIL)
    [none, some (probe_command 309 "da kai feng shan" ESP_OK)] [] rfl

/-! ## Vocabulary synchronisation: properties -/

lemma filter_range_succ_length (p : Nat → Bool) (n : Nat) :
    ((List.range (n + 1)).filter p).length =
      (if p 0 then 1 else 0) + ((List.range n).filter (fun j => p (j + 1))).length := by
  rw [List.range_succ_eq_map, List.filter_cons]
  by_cases h0 : p 0 = true
  · simp [h0, List.filter_map, Function.comp_def]; omega
  · simp [h0, List.filter_map, Function.comp_def]

lemma add_loop_spec {W : Type} (eng : EngineOutcome) (commands_ : List (CommandBase W)) :
    ∀ (k : Nat) (st : AddLoopState),
      add_loop eng commands_ k st =
        ⟨st.success_count + ((List.range commands_.length).filter
            (fun j => decide (eng.add_ret (k + j) = ESP_OK))).length,
          st.fail_count + ((List.range commands_.length).filter
            (fun j => decide (eng.add_ret (k + j) ≠ ESP_OK))).length,
          st.calls ++ commands_.map add_call⟩ := by
  induction commands_ with
  | nil => intro k st; simp [add_loop]
  | cons c cs ih =>
    intro k st
    have hs := filter_range_succ_length (fun j => decide (eng.add_ret (k + j) = ESP_OK)) cs.length
    have hf := filter_range_succ_length (fun j => decide (eng.add_ret (k + j) ≠ ESP_OK)) cs.length
    simp only [List.length_cons, hs, hf]
    by_cases hk : eng.add_ret k = ESP_OK
    · simp [add_loop, hk, ih (k + 1), add_call, Nat.add_assoc, Nat.add_comm 1]
    · simp [add_loop, hk, ih (k + 1), add_call, Nat.add_assoc, Nat.add_comm 1]

lemma succeeded_add_failed (eng : EngineOutcome) (n : Nat) :
    succeeded_adds eng n + failed_adds eng n = n := by
  have key : ∀ l : List Nat,
      (l.filter (fun k => decide (eng.add_ret k = ESP_OK))).length +
        (l.filter (fun k => decide (eng.add_ret k ≠ ESP_OK))).length = l.length := by
    intro l
    induction l with
    | nil => simp
    | cons a l ih =>
      by_cases ha : eng.add_ret a = ESP_OK
      · simp only [List.filter_cons, ha, ne_eq, not_true_eq_false, decide_True,
          decide_False, if_true, List.length_cons] at ih ⊢
        simp only [Bool.false_eq_true, if_false]
        omega
      · simp only [List.filter_cons, ha, ne_eq, not_false_eq_true, decide_True,
          decide_False, if_true, List.length_cons] at ih ⊢
        simp only [Bool.false_eq_true, if_false]
        omega
  simpa [succeeded_adds, failed_adds] using key (List.range n)

lemma failed_adds_eq_zero (eng : EngineOutcome) (n : Nat) :
    failed_adds eng n = 0 ↔ ∀ k, k < n → eng.add_ret k = ESP_OK := by
  simp [failed_adds, List.filter_eq_nil_iff]

lemma configure_commands_of_alloc_ok {W : Type} (eng : EngineOutcome)
    (commands_ : List (CommandBase W)) (halloc : eng.alloc_ret = ESP_OK) :
    (configure_commands eng commands_).ret
        = (if failed_adds eng commands_.length = 0 then ESP_OK else ESP_FAIL) ∧
    (configure_commands eng commands_).success_count = succeeded_adds eng commands_.length ∧
    (configure_commands eng commands_).fail_count = failed_adds eng commands_.length ∧
    (configure_commands eng commands_).calls =
      [EngineCall.esp_mn_commands_update_from_sdkconfig, EngineCall.esp_mn_commands_clear,
        EngineCall.esp_mn_commands_alloc] ++ commands_.map add_call ++
      [EngineCall.esp_mn_commands_update, EngineCall.print_active_speech_commands] := by
  simp [configure_commands, halloc, add_loop_spec, succeeded_adds, failed_adds]

lemma count_update_add_calls {W : Type} (commands_ : List (CommandBase W)) :
    (commands_.map add_call).count EngineCall.esp_mn_commands_update = 0 := by
  induction commands_ with
  | nil => rfl
  | cons c cs ih => simp [add_call, List.count_cons, ih]

/-- C9. Given that the engine's table allocation succeeded, `configure_commands`
issues, after the three preparatory calls, one `esp_mn_commands_add` for every
registered command in registration order (with the identifier and phonetic key of
its `get_config()`), whatever the individual adds return, then one
`esp_mn_commands_update` and the listing call. Its counters end with
`success_count + fail_count` equal to the number of registered commands,
`fail_count` the number of failed adds and `success_count` the number of
successful ones, and `esp_mn_commands_update` is called exactly once. -/
theorem configure_commands_best_effort {W : Type} (eng : EngineOutcome)
    (commands_ : List (CommandBase W)) (halloc : eng.alloc_ret = ESP_OK) :
    (configure_commands eng commands_).calls =
      [EngineCall.esp_mn_commands_update_from_sdkconfig, EngineCall.esp_mn_commands_clear,
        EngineCall.esp_mn_commands_alloc] ++ commands_.map add_call ++
      [EngineCall.esp_mn_commands_update, EngineCall.print_active_speech_commands] ∧
    (configure_commands eng commands_).success_count +
      (configure_commands eng commands_).fail_count = commands_.length ∧
    (configure_commands eng commands_).fail_count = failed_adds eng commands_.length ∧
    (configure_commands eng commands_).success_count = succeeded_adds eng commands_.length ∧
    (configure_commands eng commands_).calls.count EngineCall.esp_mn_commands_update = 1 := by
  obtain ⟨-, hs, hf, hc⟩ := configure_commands_of_alloc_ok eng commands_ halloc
  refine ⟨hc, ?_, hf, hs, ?_⟩
  · rw [hs, hf]
    exact succeeded_add_failed eng commands_.length
  · rw [hc]
    simp [List.count_append, count_update_add_calls, List.count_cons]

/-- C9 (witness): three descriptors, the second add failing: two successes, one
failure, all three adds attempted in order, the update called once after them. -/
theorem configure_commands_best_effort_witness :
    (configure_commands example_engine example_descriptors).success_count = 2 ∧
    (configure_commands example_engine example_descriptors).fail_count = 1 ∧
    (configure_commands example_engine example_descriptors).calls =
      [EngineCall.esp_mn_commands_update_from_sdkconfig, EngineCall.esp_mn_commands_clear,
        EngineCall.esp_mn_commands_alloc,
        EngineCall.esp_mn_commands_add 309 "da kai feng shan",
        EngineCall.esp_mn_commands_add 308 "bang wo guan deng",
        EngineCall.esp_mn_commands_add 314 "bai bai",
        EngineCall.esp_mn_commands_update, EngineCall.print_active_speech_commands] ∧
    (configure_commands example_engine example_descriptors).calls.count
      EngineCall.esp_mn_commands_update = 1 :=
  ⟨(configure_commands_best_effort example_engine example_descriptors rfl).2.2.2.1.trans
      (by decide),
    (configure_commands_best_effort example_engine example_descriptors rfl).2.2.1.trans
      (by decide),
    (configure_commands_best_effort example_engine example_descriptors rfl).1.trans
      (by decide),
    (configure_commands_best_effort example_engine example_descriptors rfl).2.2.2.2⟩

/-- C10 (counterexample). The allocation fails and no add fails (none is even
attempted, and each would have succeeded): `configure_commands` returns
`ESP_FAIL`, so "returns ESP_OK exactly when no individual add failed" is false
there. -/
theorem configure_commands_alloc_fail_cex :
    failed_adds alloc_failing_engine example_descriptors.length = 0 ∧
    (configure_commands alloc_failing_engine example_descriptors).fail_count = 0 ∧
    (configure_commands alloc_failing_engine example_descriptors).ret = ESP_FAIL ∧
    ¬ ((configure_commands alloc_failing_engine example_descriptors).ret = ESP_OK ↔
        failed_adds alloc_failing_engine example_descriptors.length = 0) := by
  decide

/-- C10 (amended). `configure_commands` returns `ESP_OK` if and only if the
engine's table allocation succeeded and no individual phrase add failed, and
`ESP_FAIL` otherwise; when the allocation fails it returns before any add is
attempted. The result does not depend on the phrases the commit/update step
rejects. -/
theorem configure_commands_ok_iff {W : Type} (eng : EngineOutcome)
    (commands_ : List (CommandBase W)) :
    ((configure_commands eng commands_).ret = ESP_OK ↔
      (eng.alloc_ret = ESP_OK ∧ ∀ k, k < commands_.length → eng.add_ret k = ESP_OK)) ∧
    ((configure_commands eng commands_).ret = ESP_OK ∨
      (configure_commands eng commands_).ret = ESP_FAIL) ∧
    (eng.alloc_ret ≠ ESP_OK →
      (configure_commands eng commands_).calls =
        [EngineCall.esp_mn_commands_update_from_sdkconfig, EngineCall.esp_mn_commands_clear,
          EngineCall.esp_mn_commands_alloc]) ∧
    (∀ error_phrases : Option (List (Int × String)),
      (configure_commands ⟨eng.alloc_ret, eng.add_ret, error_phrases⟩ commands_).ret =
        (configure_commands eng commands_).ret) := by
  by_cases halloc : eng.alloc_ret = ESP_OK
  · have h := (configure_commands_of_alloc_ok eng commands_ halloc).1
    have h2 : ∀ error_phrases : Option (List (Int × String)),
        (configure_commands ⟨eng.alloc_ret, eng.add_ret, error_phrases⟩ commands_).ret =
          (if failed_adds eng commands_.length = 0 then ESP_OK else ESP_FAIL) := by
      intro error_phrases
      exact (configure_commands_of_alloc_ok ⟨eng.alloc_ret, eng.add_ret, error_phrases⟩
        commands_ halloc).1
    refine ⟨?_, ?_, fun hne => absurd halloc hne, fun error_phrases => by rw [h2, h]⟩
    · rw [h, ← failed_adds_eq_zero]
      by_cases hz : failed_adds eng commands_.length = 0
      · simp [hz, halloc]
      · simp [hz, halloc, ESP_OK, ESP_FAIL]
    · rw [h]
      by_cases hz : failed_adds eng commands_.length = 0 <;> simp [hz]
  · have hfail : ∀ error_phrases : Option (List (Int × String)),
        configure_commands ⟨eng.alloc_ret, eng.add_ret, error_phrases⟩ commands_ =
          ⟨ESP_FAIL, 0, 0, [], [EngineCall.esp_mn_commands_update_from_sdkconfig,
            EngineCall.esp_mn_commands_clear, EngineCall.esp_mn_commands_alloc]⟩ := by
      intro error_phrases
      simp [configure_commands, halloc]
    have hne : ESP_FAIL ≠ ESP_OK := by decide
    have h := hfail eng.error_phrases
    refine ⟨?_, Or.inr (by rw [h]), fun _ => by rw [h], fun error_phrases => ?_⟩
    · rw [h]
      exact ⟨fun hc => absurd hc hne, fun hc => absurd hc.1 halloc⟩
    · rw [hfail error_phrases, h]

/-- C10 (witness): with the allocation succeeding and the second add failing the
call does not return `ESP_OK`. -/
theorem configure_commands_ok_iff_witness :
    ¬ ((configure_commands example_engine example_descriptors).ret = ESP_OK) :=
  fun hok =>
    absurd (((configure_commands_ok_iff example_engine example_descriptors).1.mp hok).2 1
      (by decide)) (by decide)

/-! ## Capture read: result code -/

lemma condition_loop_in_bounds (n : Nat) :
    ∀ (i : Nat) (buffer : List Int), i + n ≤ buffer.length →
      ∃ conditioned, condition_loop n i buffer = some conditioned ∧
        conditioned.length = buffer.length := by
  induction n with
  | zero => intro i buffer _; exact ⟨buffer, rfl, rfl⟩
  | succ n ih =>
    intro i buffer hlen
    have hi : i < buffer.length := by omega
    obtain ⟨conditioned, hc, hl⟩ :=
      ih (i + 1) (buffer.set i (condition_sample buffer[i])) (by simp; omega)
    refine ⟨conditioned, ?_, by simpa using hl⟩
    simp only [condition_loop, List.getElem?_eq_getElem hi]
    exact hc

/-- C11. Whatever length was requested and whatever transferred length the
driver reports (a short one included), `bsp_get_feed_data` returns a result
whose code is `ESP_OK` whenever `i2s_channel_read` reported `ESP_OK`; the code is
an error if and only if the read reported one, and then it is that code,
unchanged, with the buffer left as the read delivered it (no conditioning). A
length mismatch only sets the warning. The buffer is assumed to hold the
`buffer_len / 2` slots the conditioning loop visits (not needed in raw mode). -/
theorem bsp_get_feed_data_ret_iff (is_get_raw_channel : Bool) (read_ret : esp_err_t)
    (bytes_read : Nat) (buffer : List Int) (buffer_len : Int)
    (hfit : is_get_raw_channel = true ∨ sample_count buffer_len ≤ buffer.length) :
    ∃ r, bsp_get_feed_data is_get_raw_channel read_ret bytes_read buffer buffer_len = some r ∧
      (read_ret = ESP_OK → r.ret = ESP_OK) ∧
      (r.ret ≠ ESP_OK ↔ read_ret ≠ ESP_OK) ∧
      (read_ret ≠ ESP_OK → r.ret = read_ret ∧ r.buffer = buffer) ∧
      (read_ret = ESP_OK →
        r.mismatch_logged = decide ((bytes_read : Int) ≠ buffer_len % 4294967296)) := by
  by_cases hret : read_ret = ESP_OK
  · cases hraw : is_get_raw_channel with
    | true =>
      exact ⟨⟨ESP_OK, buffer, decide ((bytes_read : Int) ≠ buffer_len % 4294967296)⟩,
        by simp [bsp_get_feed_data, hret], by simp [hret]⟩
    | false =>
      have hlen : sample_count buffer_len ≤ buffer.length := by
        rcases hfit with h | h
        · rw [hraw] at h; exact absurd h (by decide)
        · exact h
      obtain ⟨conditioned, hc, -⟩ :=
        condition_loop_in_bounds (sample_count buffer_len) 0 buffer (by omega)
      exact ⟨⟨ESP_OK, conditioned, decide ((bytes_read : Int) ≠ buffer_len % 4294967296)⟩,
        by simp [bsp_get_feed_data, hret, hc], by simp [hret]⟩
  · exact ⟨⟨read_ret, buffer, false⟩, by simp [bsp_get_feed_data, hret], by simp [hret]⟩

/-- C11 (witness): 320 bytes requested, 100 reported as transferred, the read
succeeding: the call still returns `ESP_OK`. -/
theorem bsp_get_feed_data_ret_iff_witness :
    ∃ r, bsp_get_feed_data false ESP_OK 100 example_frame 320 = some r ∧
      (ESP_OK = ESP_OK → r.ret = ESP_OK) ∧
      (r.ret ≠ ESP_OK ↔ ESP_OK ≠ ESP_OK) ∧
      (ESP_OK ≠ ESP_OK → r.ret = ESP_OK ∧ r.buffer = example_frame) ∧
      (ESP_OK = ESP_OK →
        r.mismatch_logged = decide (((100 : Nat) : Int) ≠ 320 % 4294967296)) :=
  bsp_get_feed_data_ret_iff false ESP_OK 100 example_frame 320
    (Or.inr (by simp [sample_count, example_frame]))

/-! ## Dispatch of an ordinary identifier -/

/-- C12. For a registered identifier other than 314, `execute_command` resolves
the first command reporting it, invokes `execute` of that command once (and of
no other), and returns `COMMAND_RESULT_SUCCESS` when that returns `ESP_OK` and
`COMMAND_RESULT_EXECUTE_FAILED` otherwise; the result is never
`COMMAND_RESULT_EXIT_REQUESTED` and never `COMMAND_RESULT_NOT_FOUND`. -/
theorem execute_command_ordinary_id {W : Type} (commands_ : List (CommandBase W))
    (command_id : Int) (w : W)
    (hreg : ∃ c ∈ commands_, c.get_command_id = command_id) (hne : command_id ≠ 314) :
    ∃ slot command,
      find_command commands_ command_id = some (slot, command) ∧
      commands_[slot]? = some command ∧
      command.get_command_id = command_id ∧
      ((command.execute w).1 = ESP_OK →
        (execute_command commands_ command_id w).result = COMMAND_RESULT_SUCCESS) ∧
      ((command.execute w).1 ≠ ESP_OK →
        (execute_command commands_ command_id w).result = COMMAND_RESULT_EXECUTE_FAILED) ∧
      (execute_command commands_ command_id w).result ≠ COMMAND_RESULT_EXIT_REQUESTED ∧
      (execute_command commands_ command_id w).result ≠ COMMAND_RESULT_NOT_FOUND ∧
      (execute_command commands_ command_id w).invoked = [slot] ∧
      (execute_command commands_ command_id w).world = (command.execute w).2 := by
  have hsome : find_command commands_ command_id ≠ none := by
    intro h
    obtain ⟨c, hc, hid⟩ := hreg
    exact (find_command_from_eq_none commands_ command_id 0).mp h c hc hid
  obtain ⟨⟨slot, command⟩, hfind⟩ := Option.ne_none_iff_exists'.mp hsome
  obtain ⟨k, hk, hget, hid, -⟩ :=
    find_command_from_eq_some commands_ command_id 0 slot command hfind
  have hks : k = slot := by omega
  subst hks
  refine ⟨k, command, hfind, hget, hid, ?_⟩
  by_cases hok : (command.execute w).1 = ESP_OK <;>
    simp [execute_command, hfind, hok, hne]

/-- C12 (witness): 309 in the example registry, resolved to its only slot. -/
theorem execute_command_ordinary_id_witness :
    ∃ slot command,
      find_command example_registry 309 = some (slot, command) ∧
      example_registry[slot]? = some command ∧
      command.get_command_id = 309 ∧
      ((command.execute []).1 = ESP_OK →
        (execute_command example_registry 309 []).result = COMMAND_RESULT_SUCCESS) ∧
      ((command.execute []).1 ≠ ESP_OK →
        (execute_command example_registry 309 []).result = COMMAND_RESULT_EXECUTE_FAILED) ∧
      (execute_command example_registry 309 []).result ≠ COMMAND_RESULT_EXIT_REQUESTED ∧
      (execute_command example_registry 309 []).result ≠ COMMAND_RESULT_NOT_FOUND ∧
      (execute_command example_registry 309 []).invoked = [slot] ∧
      (execute_command example_registry 309 []).world = (command.execute []).2 :=
  execute_command_ordinary_id example_registry 309 []
    ⟨probe_command 309 "da kai feng shan" ESP_OK,
      by simp [example_registry, registered_a_then_b, register_commands, register_command],
      rfl⟩
    (by decide)

/-! ## Playback: order of the driver calls -/

/-- C13. On an initialised channel, with non-null data and non-zero length:
from Disabled, the first driver call of `bsp_play_audio` is the enable; when it
fails the call returns the enable's code with no write issued and the state
still Disabled; when enable, write and disable all succeed the driver calls are
exactly enable, write, disable, the call returns `ESP_OK` and the state is
Disabled. From Enabled, the first driver call is the write and no enable is
issued at all. -/
theorem bsp_play_audio_call_order (hw : HwOutcome) (audio_data : Option (List Nat))
    (data_len : Nat) (s : BoardState) (h : Nat)
    (hinit : s.tx_handle = some h) (hdata : audio_data ≠ none) (hlen : data_len ≠ 0) :
    (s.tx_channel_enabled = false →
      (bsp_play_audio hw audio_data data_len s).calls.head?
        = some (HwCall.i2s_channel_enable h) ∧
      (hw.enable_ret ≠ ESP_OK →
        bsp_play_audio hw audio_data data_len s =
          ⟨hw.enable_ret, s, [HwCall.i2s_channel_enable h]⟩) ∧
      (hw.enable_ret = ESP_OK → hw.write_ret = ESP_OK → hw.disable_ret = ESP_OK →
        bsp_play_audio hw audio_data data_len s =
          ⟨ESP_OK, ⟨some h, false⟩,
            [HwCall.i2s_channel_enable h, HwCall.i2s_channel_write h data_len,
              HwCall.i2s_channel_disable h]⟩)) ∧
    (s.tx_channel_enabled = true →
      (bsp_play_audio hw audio_data data_len s).calls.head?
        = some (HwCall.i2s_channel_write h data_len) ∧
      HwCall.i2s_channel_enable h ∉ (bsp_play_audio hw audio_data data_len s).calls) := by
  obtain ⟨handle, enabled⟩ := s
  simp only at hinit
  subst hinit
  cases enabled <;>
    by_cases he : hw.enable_ret = ESP_OK <;>
    by_cases hw_ : hw.write_ret = ESP_OK <;>
    by_cases hd : hw.disable_ret = ESP_OK <;>
    simp [bsp_play_audio, bsp_play_audio_transfer, bsp_audio_stop, hdata, hlen, he, hw_, hd]

/-- C13 (witness): a Disabled channel whose enable fails with `ESP_FAIL`: only
the enable is issued and the channel stays Disabled. -/
theorem bsp_play_audio_call_order_witness :
    bsp_play_audio ⟨ESP_FAIL, ESP_OK, 4, ESP_OK⟩ (some [1, 2, 3, 4]) 4 ⟨some 1, false⟩ =
      ⟨(⟨ESP_FAIL, ESP_OK, 4, ESP_OK⟩ : HwOutcome).enable_ret, ⟨some 1, false⟩,
        [HwCall.i2s_channel_enable 1]⟩ :=
  ((bsp_play_audio_call_order ⟨ESP_FAIL, ESP_OK, 4, ESP_OK⟩ (some [1, 2, 3, 4]) 4
    ⟨some 1, false⟩ 1 rfl (by decide) (by decide)).1 rfl).2.1 (by decide)

/-! ## Playback state machine: invariant -/

lemma board_step_enabled_handle (op : BoardOp) (s : BoardState)
    (hinv : s.tx_channel_enabled = true → s.tx_handle ≠ none) :
    (board_step op s).tx_channel_enabled = true → (board_step op s).tx_handle ≠ none := by
  obtain ⟨handle, enabled⟩ := s
  cases op with
  | audio_init out sample_rate channel_format bits_per_chan =>
    by_cases h1 : out.new_channel_ret = ESP_OK <;>
      by_cases h2 : out.init_std_mode_ret = ESP_OK <;>
      by_cases h3 : out.enable_ret = ESP_OK <;>
      simp [board_step, bsp_audio_init, h1, h2, h3] <;>
      simpa using hinv
  | play_audio hw audio_data data_len =>
    cases handle <;> cases enabled <;>
      by_cases ha : audio_data = none ∨ data_len = 0 <;>
      by_cases he : hw.enable_ret = ESP_OK <;>
      by_cases hw_ : hw.write_ret = ESP_OK <;>
      by_cases hd : hw.disable_ret = ESP_OK <;>
      simp [board_step, bsp_play_audio, bsp_play_audio_transfer, bsp_audio_stop, ha, he,
        hw_, hd] at hinv ⊢
  | audio_stop hw =>
    cases handle <;> cases enabled <;>
      by_cases hd : hw.disable_ret = ESP_OK <;>
      simp [board_step, bsp_audio_stop, hd] at hinv ⊢

lemma board_run_enabled_handle (ops : List BoardOp) :
    ∀ s : BoardState, (s.tx_channel_enabled = true → s.tx_handle ≠ none) →
      (board_run ops s).tx_channel_enabled = true → (board_run ops s).tx_handle ≠ none := by
  induction ops with
  | nil => intro s hinv; simpa [board_run] using hinv
  | cons op ops ih =>
    intro s hinv
    have hstep : board_run (op :: ops) s = board_run ops (board_step op s) := rfl
    rw [hstep]
    exact ih (board_step op s) (board_step_enabled_handle op s hinv)

lemma bsp_audio_stop_keeps_disabled (hw : HwOutcome) (s : BoardState)
    (hoff : s.tx_channel_enabled = false) :
    (bsp_audio_stop hw s).state.tx_channel_enabled = false := by
  obtain ⟨handle, enabled⟩ := s
  simp only at hoff
  subst hoff
  cases handle <;> simp [bsp_audio_stop]

lemma bsp_audio_init_sets_enabled (out : InitOutcome) (sample_rate : Nat)
    (channel_format bits_per_chan : Int) (s : BoardState)
    (hoff : s.tx_channel_enabled = false)
    (hon : (bsp_audio_init out sample_rate channel_format bits_per_chan
      s).state.tx_channel_enabled = true) :
    out.new_channel_ret = ESP_OK ∧ out.init_std_mode_ret = ESP_OK ∧
    out.enable_ret = ESP_OK ∧
    (bsp_audio_init out sample_rate channel_format bits_per_chan s).calls.getLast?
      = some (InitCall.i2s_channel_enable out.new_handle) := by
  obtain ⟨handle, enabled⟩ := s
  simp only at hoff
  subst hoff
  revert hon
  by_cases h1 : out.new_channel_ret = ESP_OK <;>
    by_cases h2 : out.init_std_mode_ret = ESP_OK <;>
    by_cases h3 : out.enable_ret = ESP_OK <;>
    simp [bsp_audio_init, h1, h2, h3]

lemma bsp_play_audio_sets_enabled (hw : HwOutcome) (audio_data : Option (List Nat))
    (data_len : Nat) (s : BoardState) (hoff : s.tx_channel_enabled = false)
    (hon : (bsp_play_audio hw audio_data data_len s).state.tx_channel_enabled = true) :
    ∃ h, s.tx_handle = some h ∧ audio_data ≠ none ∧ data_len ≠ 0 ∧
      hw.enable_ret = ESP_OK ∧
      (bsp_play_audio hw audio_data data_len s).calls.head?
        = some (HwCall.i2s_channel_enable h) := by
  obtain ⟨handle, enabled⟩ := s
  simp only at hoff
  subst hoff
  revert hon
  cases handle with
  | none => simp [bsp_play_audio]
  | some h =>
    by_cases ha : audio_data = none ∨ data_len = 0
    · simp [bsp_play_audio, ha]
    · have hdata : audio_data ≠ none := fun hn => ha (Or.inl hn)
      have hlen : data_len ≠ 0 := fun hn => ha (Or.inr hn)
      by_cases he : hw.enable_ret = ESP_OK <;>
        by_cases hw_ : hw.write_ret = ESP_OK <;>
        by_cases hd : hw.disable_ret = ESP_OK <;>
        simp [bsp_play_audio, bsp_play_audio_transfer, bsp_audio_stop, hdata, hlen, he,
          hw_, hd]

/-- C14. In every state reached from the initial globals (`tx_handle` null,
`tx_channel_enabled` false) by any sequence of `bsp_audio_init`, `bsp_play_audio`
and `bsp_audio_stop` calls with arbitrary driver answers (channel creation
storing a handle only when it succeeds), `tx_channel_enabled` being true implies
that `tx_handle` is non-null. Moreover a call in any state `s` turns the flag
from false to true only if it is a `bsp_audio_init` whose creation, standard-mode
setup and enable all returned `ESP_OK` (the enable being its last driver call),
or a `bsp_play_audio` on an initialised channel with valid arguments whose first
driver call is the re-enable and that enable returned `ESP_OK`; `bsp_audio_stop`
never does. -/
theorem playback_enabled_implies_handle (ops : List BoardOp) (op : BoardOp)
    (s : BoardState) :
    ((board_run ops board_initial).tx_channel_enabled = true →
      (board_run ops board_initial).tx_handle ≠ none) ∧
    (s.tx_channel_enabled = false → (board_step op s).tx_channel_enabled = true →
      (∃ out sample_rate channel_format bits_per_chan,
        op = BoardOp.audio_init out sample_rate channel_format bits_per_chan ∧
        out.new_channel_ret = ESP_OK ∧ out.init_std_mode_ret = ESP_OK ∧
        out.enable_ret = ESP_OK ∧
        (bsp_audio_init out sample_rate channel_format bits_per_chan s).calls.getLast?
          = some (InitCall.i2s_channel_enable out.new_handle)) ∨
      (∃ hw audio_data data_len h,
        op = BoardOp.play_audio hw audio_data data_len ∧
        s.tx_handle = some h ∧ audio_data ≠ none ∧ data_len ≠ 0 ∧
        hw.enable_ret = ESP_OK ∧
        (bsp_play_audio hw audio_data data_len s).calls.head?
          = some (HwCall.i2s_channel_enable h))) := by
  refine ⟨board_run_enabled_handle ops board_initial (by simp [board_initial]), ?_⟩
  intro hoff hon
  cases op with
  | audio_init out sample_rate channel_format bits_per_chan =>
    exact Or.inl ⟨out, sample_rate, channel_format, bits_per_chan, rfl,
      bsp_audio_init_sets_enabled out sample_rate channel_format bits_per_chan s hoff hon⟩
  | play_audio hw audio_data data_len =>
    obtain ⟨h, hh⟩ := bsp_play_audio_sets_enabled hw audio_data data_len s hoff hon
    exact Or.inr ⟨hw, audio_data, data_len, h, rfl, hh⟩
  | audio_stop hw =>
    have hkeep := bsp_audio_stop_keeps_disabled hw s hoff
    simp only [board_step] at hon
    rw [hkeep] at hon
    exact absurd hon (by decide)

/-- C14 (witness): init succeeds, a stop, a play whose write fails after the
re-enable, then a second init whose channel creation fails: the flag is true and
the handle is the one the first init stored. -/
theorem playback_enabled_implies_handle_witness :
    board_run
      [BoardOp.audio_init ⟨ESP_OK, 5, ESP_OK, ESP_OK⟩ 16000 1 16,
        BoardOp.audio_stop ⟨ESP_OK, ESP_OK, 0, ESP_OK⟩,
        BoardOp.play_audio ⟨ESP_OK, ESP_FAIL, 0, ESP_OK⟩ (some [1, 2, 3, 4]) 4,
        BoardOp.audio_init ⟨ESP_FAIL, 6, ESP_OK, ESP_OK⟩ 16000 1 16]
      board_initial = ⟨some 5, true⟩ ∧
    (board_run
      [BoardOp.audio_init ⟨ESP_OK, 5, ESP_OK, ESP_OK⟩ 16000 1 16,
        BoardOp.audio_stop ⟨ESP_OK, ESP_OK, 0, ESP_OK⟩,
        BoardOp.play_audio ⟨ESP_OK, ESP_FAIL, 0, ESP_OK⟩ (some [1, 2, 3, 4]) 4,
        BoardOp.audio_init ⟨ESP_FAIL, 6, ESP_OK, ESP_OK⟩ 16000 1 16]
      board_initial).tx_handle ≠ none :=
  ⟨by decide,
    (playback_enabled_implies_handle
      [BoardOp.audio_init ⟨ESP_OK, 5, ESP_OK, ESP_OK⟩ 16000 1 16,
        BoardOp.audio_stop ⟨ESP_OK, ESP_OK, 0, ESP_OK⟩,
        BoardOp.play_audio ⟨ESP_OK, ESP_FAIL, 0, ESP_OK⟩ (some [1, 2, 3, 4]) 4,
        BoardOp.audio_init ⟨ESP_FAIL, 6, ESP_OK, ESP_OK⟩ 16000 1 16]
      (BoardOp.audio_stop ⟨ESP_OK, ESP_OK, 0, ESP_OK⟩) board_initial).1 (by decide)⟩

/-! ## Concrete commands: results -/

lemma initialize_commands_nil (assets : CommandAssets) :
    initialize_commands assets [] =
      [LightOnCommand assets, LightOffCommand assets, ByeByeCommand assets] := by
  simp [initialize_commands, register_command]

lemma execute_command_of_execute_ok {W : Type} (commands_ : List (CommandBase W))
    (command_id : Int) (w : W)
    (hall : ∀ c ∈ commands_, ∀ w0, (c.execute w0).1 = ESP_OK) :
    (execute_command commands_ command_id w).result ≠ COMMAND_RESULT_EXECUTE_FAILED ∧
    (command_id = 314 → (∃ c ∈ commands_, c.get_command_id = 314) →
      (execute_command commands_ command_id w).result = COMMAND_RESULT_EXIT_REQUESTED) := by
  cases hfind : find_command commands_ command_id with
  | none =>
    refine ⟨by simp [execute_command, hfind], ?_⟩
    intro hid hreg
    subst hid
    obtain ⟨c, hc, hcid⟩ := hreg
    exact absurd hcid ((find_command_from_eq_none commands_ 314 0).mp hfind c hc)
  | some found =>
    obtain ⟨slot, command⟩ := found
    obtain ⟨k, -, hget, -, -⟩ :=
      find_command_from_eq_some commands_ command_id 0 slot command hfind
    have hmem : command ∈ commands_ := List.getElem?_mem hget
    have hok : (command.execute w).1 = ESP_OK := hall command hmem w
    by_cases h314 : command_id = 314
    · subst h314
      simp [execute_command, hfind, hok]
    · simp [execute_command, hfind, hok, h314]

lemma initialize_commands_execute_ok (assets : CommandAssets) :
    ∀ c ∈ initialize_commands assets [], ∀ w0, (c.execute w0).1 = ESP_OK := by
  intro c hc w0
  rw [initialize_commands_nil] at hc
  simp only [List.mem_cons, List.mem_singleton, List.not_mem_nil, or_false] at hc
  rcases hc with rfl | rfl | rfl <;> rfl

/-- C15. `execute` of `LightOnCommand`, `LightOffCommand` and `ByeByeCommand`
returns `ESP_OK` in every world, whatever `bsp_play_audio` returns inside it
(that code is only logged). Consequently, on the registry that
`CommandManager::initialize` builds from an empty one, `execute_command` never
returns `COMMAND_RESULT_EXECUTE_FAILED`, for any identifier, and
`execute_command(314)` always returns `COMMAND_RESULT_EXIT_REQUESTED`. -/
theorem concrete_commands_never_fail (assets : CommandAssets) (w : World)
    (command_id : Int) :
    (((LightOnCommand assets).execute w).1 = ESP_OK ∧
      ((LightOnCommand assets).execute w).2.audio_rets = w.audio_rets ++
        [(world_play_audio assets.light_on assets.light_on_len
          (gpio_set_level assets.light_on_led_gpio 1 w)).1]) ∧
    (((LightOffCommand assets).execute w).1 = ESP_OK ∧
      ((LightOffCommand assets).execute w).2.audio_rets = w.audio_rets ++
        [(world_play_audio assets.light_off assets.light_off_len
          (gpio_set_level 21 0 w)).1]) ∧
    (((ByeByeCommand assets).execute w).1 = ESP_OK ∧
      ((ByeByeCommand assets).execute w).2.audio_rets = w.audio_rets ++
        [(world_play_audio assets.byebye assets.byebye_len w).1]) ∧
    (execute_command (initialize_commands assets []) command_id w).result
      ≠ COMMAND_RESULT_EXECUTE_FAILED ∧
    (execute_command (initialize_commands assets []) 314 w).result
      = COMMAND_RESULT_EXIT_REQUESTED := by
  refine ⟨⟨rfl, rfl⟩, ⟨rfl, rfl⟩, ⟨rfl, rfl⟩, ?_, ?_⟩
  · exact (execute_command_of_execute_ok _ command_id w
      (initialize_commands_execute_ok assets)).1
  · exact (execute_command_of_execute_ok _ 314 w
      (initialize_commands_execute_ok assets)).2 rfl
      ⟨ByeByeCommand assets, by simp [initialize_commands_nil], rfl⟩

/-- C15 (witness): the playback channel was never initialised, so the playback
inside `ByeByeCommand::execute` fails with `ESP_ERR_INVALID_STATE`; dispatching
314 still reports `COMMAND_RESULT_EXIT_REQUESTED`. -/
theorem concrete_commands_never_fail_witness :
    (world_play_audio example_assets.byebye example_assets.byebye_len
      uninitialised_world).1 = ESP_ERR_INVALID_STATE ∧
    (execute_command (initialize_commands example_assets []) 314
      uninitialised_world).result = COMMAND_RESULT_EXIT_REQUESTED :=
  ⟨by decide, (concrete_commands_never_fail example_assets uninitialised_world 314).2.2.2.2⟩

end Zapmyco
